import Mathlib

/-!
Verification model of the hass-nature-remo integration.

Python floats are modelled as exact rationals (ℚ); machine rounding is not
claim-relevant here.  Python dictionaries whose keys are fixed mode strings
are modelled as functions `String → Option String` (Python `None` is `none`).
Exceptions are modelled with `Option`/`Except`, or, where Python mutates
state before raising, as a pair of the state as mutated so far and a flag
saying whether an exception escaped.
-/

namespace NatureRemo

/-- Model of Python `float(s)` restricted to plain decimal literals: optional
sign, digits, optional single point with fractional digits, at least one
digit overall.  Scientific notation, `inf`/`nan`, underscores and surrounding
whitespace are outside the model; unparseable strings give `none`, modelling
`ValueError`. -/
def pyFloatOfString (s : String) : Option ℚ :=
  let cs := s.toList
  let signAndRest : ℚ × List Char :=
    match cs with
    | '-' :: r => (-1, r)
    | '+' :: r => (1, r)
    | r => (1, r)
  let sgn := signAndRest.1
  let rest := signAndRest.2
  let intDigits := rest.takeWhile Char.isDigit
  let afterInt := rest.dropWhile Char.isDigit
  let digitsVal : List Char → ℚ :=
    fun l => ((l.foldl (fun a c => a * 10 + (c.toNat - 48)) 0 : ℕ) : ℚ)
  match afterInt with
  | [] =>
    if intDigits.isEmpty then none
    else some (sgn * digitsVal intDigits)
  | '.' :: fracDigits =>
    if fracDigits.all Char.isDigit ∧ ¬(intDigits.isEmpty ∧ fracDigits.isEmpty) then
      some (sgn * (digitsVal intDigits + digitsVal fracDigits / (10 ^ fracDigits.length)))
    else none
  | _ => none

/-- Round-half-to-even on ℚ, the tie rule of Python's built-in `round`. -/
def roundHalfEven (q : ℚ) : ℤ :=
  let f := ⌊q⌋
  if q - f < 1/2 then f
  else if (1:ℚ)/2 < q - f then f + 1
  else if 2 ∣ f then f else f + 1

/-- Model of Python `round(q, 1)`. -/
def pyRound1 (q : ℚ) : ℚ := (roundHalfEven (q * 10) : ℚ) / 10

/-- `NatureRemoAC._current_mode_temp_range`:
`list(map(float, filter(None, temp_range)))` — falsy (empty-string) entries
are dropped, the rest converted with `float`; a `ValueError` from an
unparseable entry propagates (`none`). -/
def currentModeTempRange (tempRange : List String) : Option (List ℚ) :=
  (tempRange.filter (fun s => s ≠ "")).mapM pyFloatOfString

/-- `NatureRemoAC.min_temp`: `0` for an empty range, else Python `min`,
which folds `min` over the list. -/
def min_temp (tempRange : List String) : Option ℚ :=
  match currentModeTempRange tempRange with
  | none => none
  | some [] => some 0
  | some (x :: xs) => some (xs.foldl min x)

/-- `NatureRemoAC.max_temp`: `0` for an empty range, else Python `max`. -/
def max_temp (tempRange : List String) : Option ℚ :=
  match currentModeTempRange tempRange with
  | none => none
  | some [] => some 0
  | some (x :: xs) => some (xs.foldl max x)

/-- `NatureRemoAC.target_temperature_step`: with at least two entries the
step is `round(temp_range[1] - temp_range[0], 1)` when that rounded gap is
`1.0` or `0.5`; in every other case `1`. -/
def target_temperature_step (tempRange : List String) : Option ℚ :=
  match currentModeTempRange tempRange with
  | none => none
  | some (t0 :: t1 :: _) =>
    let step := pyRound1 (t1 - t0)
    if step = 1 ∨ step = 1/2 then some step else some 1
  | some _ => some 1

example : pyFloatOfString "16" = some 16 := by with_unfolding_all rfl
example : pyFloatOfString "16.5" = some (33/2) := by with_unfolding_all rfl
example : pyFloatOfString "" = none := by with_unfolding_all rfl
example : pyFloatOfString "16.52" = some (413/25) := by with_unfolding_all rfl
example : currentModeTempRange ["16", "16.5", "17"] = some [16, 33/2, 17] := by with_unfolding_all rfl
example : target_temperature_step ["16", "16.5", "17"] = some (1/2) := by with_unfolding_all rfl
example : target_temperature_step ["16", "18", "20"] = some 1 := by with_unfolding_all rfl
example : target_temperature_step ["16", "16.52"] = some (1/2) := by with_unfolding_all rfl
example : min_temp [] = some 0 ∧ max_temp [] = some 0 := by constructor <;> with_unfolding_all rfl
example : min_temp ["", ""] = some 0 := by with_unfolding_all rfl

/-- Home Assistant HVAC modes occurring in `MODE_HA_TO_REMO` / `MODE_REMO_TO_HA`. -/
inductive HVACMode where
  | auto | fan_only | cool | dry | heat | off
deriving DecidableEq, Repr

/-- The `MODE_HA_TO_REMO` dictionary of `climate.py` (total on the six modes). -/
def MODE_HA_TO_REMO : HVACMode → String
  | .auto => "auto"
  | .fan_only => "blow"
  | .cool => "cool"
  | .dry => "dry"
  | .heat => "warm"
  | .off => "power-off"

/-- The `MODE_REMO_TO_HA` dictionary of `climate.py`; `none` models `KeyError`. -/
def MODE_REMO_TO_HA (m : String) : Option HVACMode :=
  if m = "auto" then some .auto
  else if m = "blow" then some .fan_only
  else if m = "cool" then some .cool
  else if m = "dry" then some .dry
  else if m = "warm" then some .heat
  else if m = "power-off" then some .off
  else none

/-- `DEFAULT_COOL_TEMP` / `DEFAULT_HEAT_TEMP` from `const.py`, as the
`_default_temp` dictionary of `NatureRemoAC.__init__` (`.get` returns `none`
for the other modes). -/
def default_temp : HVACMode → Option ℤ
  | .cool => some 28
  | .heat => some 20
  | _ => none

/-- An `aircon_settings` record as consumed by `NatureRemoAC._update`:
`temp = none` models a missing `"temp"` key (`KeyError`). -/
structure AcSettings where
  mode : String
  temp : Option String
  vol : String
  dir : String
  button : String
deriving DecidableEq, Repr

/-- A device record as consumed by `NatureRemoAC._update`: `te_val = none`
models a missing key along `device["newest_events"]["te"]["val"]`. -/
structure DeviceRecord where
  te_val : Option String
deriving DecidableEq, Repr

/-- The mutable fields of a `NatureRemoAC` entity.  `_last_target_temperature`
is a dictionary from remo mode strings to `None`-or-string, modelled as a
function (`none` is Python `None`; the constructor fills the six known keys
with `None`, and those are the only keys ever read). -/
structure ACState where
  remoMode : String
  targetTemperature : Option ℚ
  lastTargetTemperature : String → Option String
  hvacMode : Option HVACMode
  fanMode : Option String
  swingMode : Option String
  currentTemperature : Option ℚ

/-- The field values set by `NatureRemoAC.__init__` before the first
`_update` call. -/
def initialACState : ACState where
  remoMode := ""
  targetTemperature := none
  lastTargetTemperature := fun _ => none
  hvacMode := none
  fanMode := none
  swingMode := none
  currentTemperature := none

/-- `NatureRemoAC._update`, statement by statement.  Python mutates the
entity in place and an uncaught exception (an unknown mode under
`MODE_REMO_TO_HA`, or a `ValueError` from `float` on the device reading)
escapes mid-way, so the result is the state as mutated so far together with
a flag that is `true` when an exception escaped.  The `try` around the
target temperature swallows `KeyError` and `ValueError`; the recording into
`_last_target_temperature` only runs when `float` succeeded. -/
def ac_update (st : ACState) (s : AcSettings) (device : Option DeviceRecord) :
    ACState × Bool :=
  let st1 := { st with remoMode := s.mode }
  let st2 :=
    match s.temp with
    | none => { st1 with targetTemperature := none }
    | some t =>
      match pyFloatOfString t with
      | none => { st1 with targetTemperature := none }
      | some q =>
        { st1 with
            targetTemperature := some q
            lastTargetTemperature :=
              fun m => if m = s.mode then some t else st1.lastTargetTemperature m }
  match (if s.button = MODE_HA_TO_REMO .off then some HVACMode.off
         else MODE_REMO_TO_HA s.mode) with
  | none => (st2, true)
  | some h =>
    let st3 :=
      { st2 with
          hvacMode := some h
          fanMode := if s.vol = "" then none else some s.vol
          swingMode := if s.dir = "" then none else some s.dir }
    match device with
    | none => (st3, false)
    | some d =>
      match d.te_val with
      | none => (st3, false)
      | some v =>
        match pyFloatOfString v with
        | none => (st3, true)
        | some q => ({ st3 with currentTemperature := some q }, false)

/-- Values of a Python form-data dictionary sent by the climate entity:
remembered temperatures are raw strings, default temperatures ints. -/
inductive PyVal where
  | str (s : String)
  | int (n : ℤ)
deriving DecidableEq, Repr

/-- Python truthiness of an `Option String`: `None` and `""` are falsy. -/
def pyTruthyOptStr : Option String → Bool
  | none => false
  | some s => s ≠ ""

/-- The request payload built by `NatureRemoAC.async_set_hvac_mode` (insertion
order of the Python dict preserved): for `off` just the power button;
otherwise `operation_mode`, plus the remembered temperature for that remo
mode when truthy, else the mode's default temperature when present. -/
def set_hvac_mode_payload (st : ACState) (hvacMode : HVACMode) :
    List (String × PyVal) :=
  let mode := MODE_HA_TO_REMO hvacMode
  if mode = MODE_HA_TO_REMO .off then
    [("button", .str mode)]
  else
    if pyTruthyOptStr (st.lastTargetTemperature mode) then
      [("operation_mode", .str mode),
       ("temperature", .str ((st.lastTargetTemperature mode).getD ""))]
    else
      match default_temp hvacMode with
      | some d => [("operation_mode", .str mode), ("temperature", .int d)]
      | none => [("operation_mode", .str mode)]

/-- Exceptions that can escape the API client or `_update`. -/
inductive PyExc where
  | connectionError
  | timeoutError
  | jsonDecodeError
  | keyError
  | valueError
deriving DecidableEq, Repr

/-- `NatureRemoAC._post` (and the identical inline bodies of
`async_set_temperature` / `async_set_fan_mode`): run `api.post`, then merge
the response with `_update`.  When the POST raises, `_update` never runs and
the entity state is returned untouched together with the propagated error. -/
def ac_post (st : ACState) (resp : Except PyExc AcSettings) :
    ACState × Except PyExc Unit :=
  match resp with
  | .error e => (st, .error e)
  | .ok r =>
    let u := ac_update st r none
    (u.1, if u.2 then .error .keyError else .ok ())

/-- Outcome of `requests.get` on the appliances listing during setup:
either the transport raised, or a response with a status code whose body
does or does not parse as a JSON list of objects with `"id"` keys. -/
inductive HttpOutcome where
  | transportFailure (e : PyExc)
  | response (status : ℕ) (bodyOk : Bool)
deriving DecidableEq, Repr

/-- `NatureRemoAPI.authenticate_check`: a non-200 status returns `False`;
on 200 the body is parsed (a parse failure raises) and `True` is returned.
Transport exceptions from `requests.get` propagate. -/
def authenticate_check : HttpOutcome → Except PyExc Bool
  | .transportFailure e => .error e
  | .response status bodyOk =>
    if status ≠ 200 then .ok false
    else if bodyOk then .ok true
    else .error .jsonDecodeError

/-- Exceptions reaching `async_step_user`: the two `HomeAssistantError`
subclasses declared in `config_flow.py` plus any propagated Python
exception. -/
inductive FlowExc where
  | cannotConnect
  | invalidAuth
  | pyExc (e : PyExc)
deriving DecidableEq, Repr

/-- `config_flow.validate_input`: raises `InvalidAuth` when
`authenticate_check` returned `False`; exceptions raised inside
`authenticate_check` propagate unchanged (nothing ever raises
`CannotConnect`). -/
def validate_input (r : HttpOutcome) : Except FlowExc Unit :=
  match authenticate_check r with
  | .error e => .error (.pyExc e)
  | .ok false => .error .invalidAuth
  | .ok true => .ok ()

/-- Result of one pass through `ConfigFlow.async_step_user` with user input
present: either an entry is created or the form is shown again with an
error key. -/
inductive FlowResult where
  | createEntry
  | showForm (errorBase : String)
deriving DecidableEq, Repr

/-- `ConfigFlow.async_step_user` (user input present): `except CannotConnect`
→ `cannot_connect`, `except InvalidAuth` → `invalid_auth`,
`except Exception` → `unknown`, else create the entry. -/
def async_step_user (r : HttpOutcome) : FlowResult :=
  match validate_input r with
  | .ok _ => .createEntry
  | .error .cannotConnect => .showForm "cannot_connect"
  | .error .invalidAuth => .showForm "invalid_auth"
  | .error (.pyExc _) => .showForm "unknown"

/-- The coordinator's cached remote snapshot: appliances and devices keyed
by id (§3 of the spec). -/
structure RemoteData where
  appliances : List (String × AcSettings)
  devices : List (String × DeviceRecord)
deriving DecidableEq, Repr

/-- Modelled from the spec: the repository's `coordinator.py` (the
`NatureRemoCoordinator` imported by `base.py` and `climate.py`) is not among
the provided source files, so the Refresh Coordinator state is modelled from
§4.1/§5 of the spec: a cached snapshot, the set of callers awaiting the
in-flight refresh (empty = no refresh in flight), a count of network fetches
issued, the results delivered to forced-refresh callers, registered
subscribers, the subscriber notifications fanned out, and the errors
surfaced to the user interface layer. -/
structure CoordState where
  cache : Option RemoteData
  waiters : List ℕ
  fetches : ℕ
  delivered : List (ℕ × Except PyExc RemoteData)
  subscribers : List ℕ
  notified : List ℕ
  uiErrors : List PyExc
  schedulerActive : Bool

/-- Modelled from the spec: arrival of a `requestRefresh()` call by caller
`c` — if no refresh is in flight a network fetch is issued and `c` awaits
it; otherwise `c` joins the in-flight refresh without issuing a second
fetch (single-flight, §4.1). -/
def coordRequest (s : CoordState) (c : ℕ) : CoordState :=
  if s.waiters.isEmpty then
    { s with waiters := [c], fetches := s.fetches + 1 }
  else
    { s with waiters := s.waiters ++ [c] }

/-- Modelled from the spec: completion of the in-flight fetch with result
`r` — every waiting caller receives the same result, the cache is replaced
on success and kept on failure, and subscribers are notified on success
(§4.1). -/
def coordComplete (s : CoordState) (r : Except PyExc RemoteData) : CoordState :=
  { s with
      waiters := []
      cache := match r with | .ok v => some v | .error _ => s.cache
      delivered := s.delivered ++ s.waiters.map (fun c => (c, r))
      notified := match r with
        | .ok _ => s.notified ++ s.subscribers
        | .error _ => s.notified }

/-- Modelled from the spec: one scheduled background tick — a fetch is
issued and completes with result `r`; on success the cache is replaced and
subscribers notified; on failure the error is only logged: the cache is
kept, nothing is surfaced to the user interface layer, and the scheduler
stays active so the next tick retries (§4.1 failure semantics). -/
def scheduledTick (s : CoordState) (r : Except PyExc RemoteData) : CoordState :=
  { s with
      fetches := s.fetches + 1
      cache := match r with | .ok v => some v | .error _ => s.cache
      notified := match r with
        | .ok _ => s.notified ++ s.subscribers
        | .error _ => s.notified }

/-! ## Helper lemmas -/

lemma foldlMin_choice (xs : List ℚ) : ∀ x : ℚ, xs.foldl min x = x ∨ xs.foldl min x ∈ xs := by
  induction xs with
  | nil => intro x; left; rfl
  | cons a l ih =>
    intro x
    rw [List.foldl_cons]
    rcases ih (min x a) with h | h
    · rcases min_choice x a with h' | h'
      · left; rw [h, h']
      · right; rw [h, h']; exact List.mem_cons_self a l
    · right; exact List.mem_cons_of_mem a h

lemma foldlMin_le_init (xs : List ℚ) : ∀ x : ℚ, xs.foldl min x ≤ x := by
  induction xs with
  | nil => intro x; exact le_refl x
  | cons a l ih =>
    intro x
    rw [List.foldl_cons]
    exact le_trans (ih (min x a)) (min_le_left x a)

lemma foldlMin_le_mem (xs : List ℚ) : ∀ x : ℚ, ∀ y ∈ xs, xs.foldl min x ≤ y := by
  induction xs with
  | nil => intro x y hy; cases hy
  | cons a l ih =>
    intro x y hy
    rw [List.foldl_cons]
    rcases List.mem_cons.mp hy with rfl | hy
    · exact le_trans (foldlMin_le_init l (min x y)) (min_le_right x y)
    · exact ih (min x a) y hy

lemma foldlMax_choice (xs : List ℚ) : ∀ x : ℚ, xs.foldl max x = x ∨ xs.foldl max x ∈ xs := by
  induction xs with
  | nil => intro x; left; rfl
  | cons a l ih =>
    intro x
    rw [List.foldl_cons]
    rcases ih (max x a) with h | h
    · rcases max_choice x a with h' | h'
      · left; rw [h, h']
      · right; rw [h, h']; exact List.mem_cons_self a l
    · right; exact List.mem_cons_of_mem a h

lemma foldlMax_init_le (xs : List ℚ) : ∀ x : ℚ, x ≤ xs.foldl max x := by
  induction xs with
  | nil => intro x; exact le_refl x
  | cons a l ih =>
    intro x
    rw [List.foldl_cons]
    exact le_trans (le_max_left x a) (ih (max x a))

lemma foldlMax_mem_le (xs : List ℚ) : ∀ x : ℚ, ∀ y ∈ xs, y ≤ xs.foldl max x := by
  induction xs with
  | nil => intro x y hy; cases hy
  | cons a l ih =>
    intro x y hy
    rw [List.foldl_cons]
    rcases List.mem_cons.mp hy with rfl | hy
    · exact le_trans (le_max_right x y) (foldlMax_init_le l (max x y))
    · exact ih (max x a) y hy

/-! ## Claims -/

/-- C4: with an empty allowed-temperature list for the current mode,
`min_temp` and `max_temp` both return `0` (no error); with a non-empty list
they return its minimum and its maximum. -/
theorem minmax_temp_spec (tempRange : List String) (r : List ℚ)
    (h : currentModeTempRange tempRange = some r) :
    (r = [] → min_temp tempRange = some 0 ∧ max_temp tempRange = some 0) ∧
    (r ≠ [] → ∃ m M, min_temp tempRange = some m ∧ max_temp tempRange = some M ∧
      m ∈ r ∧ M ∈ r ∧ ∀ x ∈ r, m ≤ x ∧ x ≤ M) := by
  constructor
  · rintro rfl
    constructor
    · simp [min_temp, h]
    · simp [max_temp, h]
  · intro hne
    match r, hne with
    | x :: xs, _ =>
      refine ⟨xs.foldl min x, xs.foldl max x, ?_, ?_, ?_, ?_, ?_⟩
      · simp [min_temp, h]
      · simp [max_temp, h]
      · rcases foldlMin_choice xs x with h' | h'
        · rw [h']; exact List.mem_cons_self x xs
        · exact List.mem_cons_of_mem x h'
      · rcases foldlMax_choice xs x with h' | h'
        · rw [h']; exact List.mem_cons_self x xs
        · exact List.mem_cons_of_mem x h'
      · intro y hy
        rcases List.mem_cons.mp hy with rfl | hy
        · exact ⟨foldlMin_le_init xs y, foldlMax_init_le xs y⟩
        · exact ⟨foldlMin_le_mem xs x y hy, foldlMax_mem_le xs x y hy⟩

/-- Witness for C4 at the concrete list `["", "17", "16"]`. -/
theorem minmax_temp_spec_witness :
    currentModeTempRange ["", "17", "16"] = some [17, 16] ∧
    (([17, 16] : List ℚ) ≠ [] →
      ∃ m M, min_temp ["", "17", "16"] = some m ∧ max_temp ["", "17", "16"] = some M ∧
        m ∈ ([17, 16] : List ℚ) ∧ M ∈ ([17, 16] : List ℚ) ∧
        ∀ x ∈ ([17, 16] : List ℚ), m ≤ x ∧ x ≤ M) :=
  ⟨by with_unfolding_all rfl,
   (minmax_temp_spec ["", "17", "16"] [17, 16] (by with_unfolding_all rfl)).2⟩

/-- C10: the allowed-temperature list backing `min_temp`, `max_temp` and
`target_temperature_step` is the raw list with falsy (empty-string) entries
removed and the rest converted with `float`; a list of only empty strings
therefore behaves exactly like the empty list. -/
theorem temp_range_filters_falsy (tempRange : List String)
    (h : ∀ s ∈ tempRange, s = "") :
    currentModeTempRange tempRange =
      (tempRange.filter (fun s => s ≠ "")).mapM pyFloatOfString ∧
    currentModeTempRange tempRange = some [] ∧
    min_temp tempRange = min_temp [] ∧
    max_temp tempRange = max_temp [] ∧
    target_temperature_step tempRange = target_temperature_step [] := by
  have hf : tempRange.filter (fun s => s ≠ "") = [] := by
    rw [List.filter_eq_nil_iff]
    intro a ha
    simp [h a ha]
  have hr : currentModeTempRange tempRange = some [] := by
    rw [currentModeTempRange, hf]
    rfl
  refine ⟨rfl, hr, ?_, ?_, ?_⟩
  · rw [min_temp, min_temp, hr]; rfl
  · rw [max_temp, max_temp, hr]; rfl
  · rw [target_temperature_step, target_temperature_step, hr]; rfl

/-- Witness for C10 at the concrete list `["", ""]`. -/
theorem temp_range_filters_falsy_witness :
    (∀ s ∈ ["", ""], s = "") ∧
    currentModeTempRange ["", ""] = some [] ∧
    min_temp ["", ""] = min_temp [] :=
  ⟨by decide,
   (temp_range_filters_falsy ["", ""] (by decide)).2.1,
   (temp_range_filters_falsy ["", ""] (by decide)).2.2.1⟩

/-- C2 as stated is false on the code: for the allowed list
`["16", "16.52"]` the gap between the first two entries is `0.52`, neither
`1.0` nor `0.5`, so the claim demands step `1`; the code rounds the gap to
one decimal before the membership test, yielding step `0.5`. -/
theorem step_claim_counterexample :
    currentModeTempRange ["16", "16.52"] = some [16, 413/25] ∧
    ((413/25 : ℚ) - 16 ≠ 1 ∧ (413/25 : ℚ) - 16 ≠ 1/2) ∧
    target_temperature_step ["16", "16.52"] = some (1/2) ∧
    target_temperature_step ["16", "16.52"] ≠ some 1 := by
  have he : target_temperature_step ["16", "16.52"] = some (1/2) := by
    with_unfolding_all rfl
  refine ⟨by with_unfolding_all rfl, ⟨by norm_num, by norm_num⟩, he, ?_⟩
  rw [he]
  intro hc
  have : (1/2 : ℚ) = 1 := Option.some.inj hc
  norm_num at this

/-- C2 amended: for a derived allowed-temperature list with at least two
entries, the step is the gap between the first two entries rounded to one
decimal (half-to-even) whenever that rounded gap is `1.0` or `0.5`, and `1`
in every other case; with fewer than two entries the step is `1`.  The
spec's examples hold: `["16", "16.5", "17"]` gives `0.5` and
`["16", "18", "20"]` gives `1`. -/
theorem step_amended :
    (∀ ts t0 t1 rest, currentModeTempRange ts = some (t0 :: t1 :: rest) →
      target_temperature_step ts =
        some (if pyRound1 (t1 - t0) = 1 ∨ pyRound1 (t1 - t0) = 1/2
              then pyRound1 (t1 - t0) else 1)) ∧
    (∀ ts r, currentModeTempRange ts = some r → r.length < 2 →
      target_temperature_step ts = some 1) ∧
    target_temperature_step ["16", "16.5", "17"] = some (1/2) ∧
    target_temperature_step ["16", "18", "20"] = some 1 := by
  refine ⟨?_, ?_, by with_unfolding_all rfl, by with_unfolding_all rfl⟩
  · intro ts t0 t1 rest h
    rw [target_temperature_step, h]
    by_cases hc : pyRound1 (t1 - t0) = 1 ∨ pyRound1 (t1 - t0) = 1/2
    · simp only [hc, if_pos]
    · simp only [hc, if_neg, not_false_iff]
  · intro ts r h hlen
    match r, hlen with
    | [], _ => rw [target_temperature_step, h]
    | [x], _ => rw [target_temperature_step, h]

/-- Witness for the amended C2 at the concrete list `["16", "16.5", "17"]`. -/
theorem step_amended_witness :
    currentModeTempRange ["16", "16.5", "17"] = some [16, 33/2, 17] ∧
    target_temperature_step ["16", "16.5", "17"] =
      some (if pyRound1 ((33/2 : ℚ) - 16) = 1 ∨ pyRound1 ((33/2 : ℚ) - 16) = 1/2
            then pyRound1 ((33/2 : ℚ) - 16) else 1) :=
  ⟨by with_unfolding_all rfl,
   step_amended.1 ["16", "16.5", "17"] 16 (33/2) [17] (by with_unfolding_all rfl)⟩

lemma ac_update_proj (st : ACState) (s : AcSettings) (device : Option DeviceRecord) :
    (ac_update st s device).1.remoMode = s.mode ∧
    (s.button = "power-off" → (ac_update st s device).1.hvacMode = some HVACMode.off) ∧
    (s.button ≠ "power-off" → ∀ h, MODE_REMO_TO_HA s.mode = some h →
      (ac_update st s device).1.hvacMode = some h) ∧
    ((s.button = "power-off" ∨ (MODE_REMO_TO_HA s.mode).isSome) →
      (ac_update st s device).1.fanMode = (if s.vol = "" then none else some s.vol) ∧
      (ac_update st s device).1.swingMode = (if s.dir = "" then none else some s.dir)) ∧
    (∀ m, (ac_update st s device).1.lastTargetTemperature m = st.lastTargetTemperature m ∨
      ∃ t, s.temp = some t ∧ (pyFloatOfString t).isSome ∧
        (ac_update st s device).1.lastTargetTemperature m = some t) := by
  have hoff : MODE_HA_TO_REMO HVACMode.off = "power-off" := rfl
  refine ⟨?_, ?_, ?_, ?_, ?_⟩
  · unfold ac_update
    (repeat' split) <;> rfl
  · intro hb
    unfold ac_update
    rw [hoff, if_pos hb]
    dsimp only
    (repeat' split) <;> rfl
  · intro hb h hm
    unfold ac_update
    rw [hoff, if_neg hb, hm]
    dsimp only
    (repeat' split) <;> rfl
  · intro hor
    unfold ac_update
    have hs : (if s.button = MODE_HA_TO_REMO HVACMode.off then some HVACMode.off
        else MODE_REMO_TO_HA s.mode).isSome := by
      rcases hor with hb | hsome
      · rw [hoff, if_pos hb]; rfl
      · by_cases hb : s.button = "power-off"
        · rw [hoff, if_pos hb]; rfl
        · rw [hoff, if_neg hb]; exact hsome
    obtain ⟨h, hm⟩ := Option.isSome_iff_exists.mp hs
    rw [hm]
    dsimp only
    (repeat' split) <;> exact ⟨rfl, rfl⟩
  · intro m
    rcases ht : s.temp with _ | t
    · left
      unfold ac_update
      rw [ht]
      dsimp only
      (repeat' split) <;> rfl
    · rcases hq : pyFloatOfString t with _ | q
      · left
        unfold ac_update
        rw [ht]
        dsimp only
        rw [hq]
        dsimp only
        (repeat' split) <;> rfl
      · by_cases hm : m = s.mode
        · right
          refine ⟨t, rfl, by simp [hq], ?_⟩
          unfold ac_update
          rw [ht]
          dsimp only
          rw [hq]
          dsimp only
          (repeat' split) <;> simp [hm]
        · left
          unfold ac_update
          rw [ht]
          dsimp only
          rw [hq]
          dsimp only
          (repeat' split) <;> simp [hm]

lemma MODE_HA_TO_REMO_eq_power_off_iff (hm : HVACMode) :
    MODE_HA_TO_REMO hm = "power-off" ↔ hm = HVACMode.off := by
  cases hm <;> decide

lemma pyFloatOfString_empty : pyFloatOfString "" = none := rfl

/-- C5: after any settings update, the stored remo mode indicator is the
settings record's mode; with button `power-off` the reported hvac mode is
OFF while that stored mode stays recoverable; with any other button the
reported hvac mode is the translation of the stored mode. -/
theorem update_off_keeps_mode (st : ACState) (s : AcSettings)
    (device : Option DeviceRecord) :
    (ac_update st s device).1.remoMode = s.mode ∧
    (s.button = "power-off" → (ac_update st s device).1.hvacMode = some HVACMode.off) ∧
    (s.button ≠ "power-off" → ∀ h, MODE_REMO_TO_HA s.mode = some h →
      (ac_update st s device).1.hvacMode = some h) :=
  ⟨(ac_update_proj st s device).1, (ac_update_proj st s device).2.1,
   (ac_update_proj st s device).2.2.1⟩

/-- Witness for C5: a `power-off` settings record with mode `cool` reports
hvac mode OFF while the stored mode stays `cool`. -/
theorem update_off_keeps_mode_witness :
    (ac_update initialACState ⟨"cool", some "25", "1", "swing", "power-off"⟩ none).1.remoMode
      = "cool" ∧
    (ac_update initialACState ⟨"cool", some "25", "1", "swing", "power-off"⟩ none).1.hvacMode
      = some HVACMode.off :=
  ⟨(update_off_keeps_mode initialACState ⟨"cool", some "25", "1", "swing", "power-off"⟩
      none).1,
   (update_off_keeps_mode initialACState ⟨"cool", some "25", "1", "swing", "power-off"⟩
      none).2.1 rfl⟩

/-- C9: after any settings update that completes the fan/swing assignments,
the reported fan and swing modes are `None` exactly when the `vol`/`dir`
field is the (falsy) empty string, and the field's value otherwise; the
empty string itself is never reported. -/
theorem update_fan_swing (st : ACState) (s : AcSettings)
    (device : Option DeviceRecord)
    (hmode : s.button = "power-off" ∨ (MODE_REMO_TO_HA s.mode).isSome) :
    (ac_update st s device).1.fanMode = (if s.vol = "" then none else some s.vol) ∧
    (ac_update st s device).1.swingMode = (if s.dir = "" then none else some s.dir) ∧
    (ac_update st s device).1.fanMode ≠ some "" ∧
    (ac_update st s device).1.swingMode ≠ some "" := by
  obtain ⟨hf, hs⟩ := (ac_update_proj st s device).2.2.2.1 hmode
  refine ⟨hf, hs, ?_, ?_⟩
  · rw [hf]
    by_cases hv : s.vol = "" <;> simp [hv]
  · rw [hs]
    by_cases hd : s.dir = "" <;> simp [hd]

/-- Witness for C9: an update with empty `vol` and nonempty `dir` reports
fan mode `None` and swing mode `swing`. -/
theorem update_fan_swing_witness :
    (ac_update initialACState ⟨"cool", some "25", "", "swing", ""⟩ none).1.fanMode
      = (if ("" : String) = "" then none else some "") ∧
    (ac_update initialACState ⟨"cool", some "25", "", "swing", ""⟩ none).1.swingMode
      = (if ("swing" : String) = "" then none else some "swing") ∧
    (ac_update initialACState ⟨"cool", some "25", "", "swing", ""⟩ none).1.fanMode
      ≠ some "" ∧
    (ac_update initialACState ⟨"cool", some "25", "", "swing", ""⟩ none).1.swingMode
      ≠ some "" :=
  update_fan_swing initialACState ⟨"cool", some "25", "", "swing", ""⟩ none
    (Or.inr (by rw [show MODE_REMO_TO_HA "cool" = some HVACMode.cool from rfl]; rfl))

/-- C3: setting a non-off hvac mode sends the remembered target temperature
for that remo mode when one was recorded, else the configured default
(cool/heat) when present, else no temperature.  Remembered values are
exactly the strings stored by `_update`, which records only
`float`-parseable (hence nonempty, truthy) strings. -/
theorem set_hvac_mode_restores_temp (st : ACState) (hm : HVACMode)
    (hoff : hm ≠ HVACMode.off) :
    (∀ t, st.lastTargetTemperature (MODE_HA_TO_REMO hm) = some t → t ≠ "" →
      set_hvac_mode_payload st hm =
        [("operation_mode", PyVal.str (MODE_HA_TO_REMO hm)),
         ("temperature", PyVal.str t)]) ∧
    (pyTruthyOptStr (st.lastTargetTemperature (MODE_HA_TO_REMO hm)) = false →
      (∀ d, default_temp hm = some d →
        set_hvac_mode_payload st hm =
          [("operation_mode", PyVal.str (MODE_HA_TO_REMO hm)),
           ("temperature", PyVal.int d)]) ∧
      (default_temp hm = none →
        set_hvac_mode_payload st hm =
          [("operation_mode", PyVal.str (MODE_HA_TO_REMO hm))])) ∧
    (∀ st' s dev m t, (ac_update st' s dev).1.lastTargetTemperature m = some t →
      st'.lastTargetTemperature m = some t ∨ (pyFloatOfString t).isSome) ∧
    (∀ t : String, (pyFloatOfString t).isSome → t ≠ "") := by
  have hcond : ¬(MODE_HA_TO_REMO hm = MODE_HA_TO_REMO HVACMode.off) := by
    rw [show MODE_HA_TO_REMO HVACMode.off = "power-off" from rfl,
        MODE_HA_TO_REMO_eq_power_off_iff]
    exact hoff
  refine ⟨?_, ?_, ?_, ?_⟩
  · intro t hlast ht
    unfold set_hvac_mode_payload
    rw [if_neg hcond, hlast]
    simp [pyTruthyOptStr, ht]
  · intro hfalse
    constructor
    · intro d hd
      unfold set_hvac_mode_payload
      rw [if_neg hcond, hd]
      simp only [hfalse, Bool.false_eq_true, if_false]
    · intro hd
      unfold set_hvac_mode_payload
      rw [if_neg hcond, hd]
      simp only [hfalse, Bool.false_eq_true, if_false]
  · intro st' s dev m t hval
    rcases (ac_update_proj st' s dev).2.2.2.2 m with h | ⟨t', hts, hfl, hval'⟩
    · left; rw [← h]; exact hval
    · right
      have : t' = t := by
        rw [hval'] at hval
        exact Option.some.inj hval
      rw [← this]
      exact hfl
  · intro t hsome ht
    rw [ht, pyFloatOfString_empty] at hsome
    simp at hsome

/-- Witness for C3: with `25` remembered for `cool`, switching to COOL sends
`operation_mode=cool, temperature=25`; from a fresh state, switching to HEAT
sends the default `20`. -/
theorem set_hvac_mode_restores_temp_witness :
    ({ initialACState with
        lastTargetTemperature := fun m => if m = "cool" then some "25" else none
       : ACState }.lastTargetTemperature (MODE_HA_TO_REMO HVACMode.cool) = some "25") ∧
    set_hvac_mode_payload
        { initialACState with
            lastTargetTemperature := fun m => if m = "cool" then some "25" else none }
        HVACMode.cool =
      [("operation_mode", PyVal.str (MODE_HA_TO_REMO HVACMode.cool)),
       ("temperature", PyVal.str "25")] ∧
    set_hvac_mode_payload initialACState HVACMode.heat =
      [("operation_mode", PyVal.str (MODE_HA_TO_REMO HVACMode.heat)),
       ("temperature", PyVal.int 20)] :=
  ⟨rfl,
   (set_hvac_mode_restores_temp
      { initialACState with
          lastTargetTemperature := fun m => if m = "cool" then some "25" else none }
      HVACMode.cool (by decide)).1 "25" rfl (by decide),
   ((set_hvac_mode_restores_temp initialACState HVACMode.heat (by decide)).2.1
      rfl).1 20 rfl⟩

/-- C6: when the POST behind a command operation fails, the error propagates
to the caller and the cached entity settings are returned untouched:
`_update` never runs, so no phantom state change is merged. -/
theorem post_failure_keeps_cache (st : ACState) (e : PyExc) :
    ac_post st (.error e) = (st, .error e) := rfl

/-- C7 as stated is false on the code: a transport failure during the
appliances-listing auth check is reported as `unknown`, not
`cannot_connect` — `validate_input` never raises `CannotConnect`, so the
`cannot_connect` branch of `async_step_user` is unreachable. -/
theorem setup_flow_counterexample :
    async_step_user (.transportFailure .connectionError) = .showForm "unknown" ∧
    async_step_user (.transportFailure .connectionError) ≠ .showForm "cannot_connect" := by
  exact ⟨rfl, by decide⟩

/-- C7 amended: any non-200 on the appliances listing is reported as
`invalid_auth`; every other validation failure — transport failures
included — is reported as `unknown`; `cannot_connect` is never produced;
every failure blocks setup (no entry is created) and a clean 200 creates
the entry. -/
theorem setup_flow_amended :
    (∀ status bodyOk, status ≠ 200 →
      async_step_user (.response status bodyOk) = .showForm "invalid_auth") ∧
    (∀ e, async_step_user (.transportFailure e) = .showForm "unknown") ∧
    async_step_user (.response 200 false) = .showForm "unknown" ∧
    async_step_user (.response 200 true) = .createEntry ∧
    (∀ r, async_step_user r = .createEntry ∨
      async_step_user r = .showForm "invalid_auth" ∨
      async_step_user r = .showForm "unknown") := by
  refine ⟨?_, ?_, rfl, rfl, ?_⟩
  · intro status bodyOk hs
    simp [async_step_user, validate_input, authenticate_check, hs]
  · intro e
    rfl
  · intro r
    rcases r with e | ⟨status, bodyOk⟩
    · right; right; rfl
    · by_cases hs : status = 200
      · subst hs
        cases bodyOk
        · right; right; rfl
        · left; rfl
      · right; left
        simp [async_step_user, validate_input, authenticate_check, hs]

/-- Witness for the amended C7 at status 401. -/
theorem setup_flow_amended_witness :
    (401 : ℕ) ≠ 200 ∧
    async_step_user (.response 401 true) = .showForm "invalid_auth" :=
  ⟨by decide, setup_flow_amended.1 401 true (by decide)⟩

lemma coordRequest_inflight_foldl (cs : List ℕ) : ∀ s : CoordState, s.waiters ≠ [] →
    (cs.foldl coordRequest s).waiters = s.waiters ++ cs ∧
    (cs.foldl coordRequest s).fetches = s.fetches ∧
    (cs.foldl coordRequest s).delivered = s.delivered := by
  induction cs with
  | nil => exact fun s _ => ⟨(List.append_nil _).symm, rfl, rfl⟩
  | cons c cs ih =>
    intro s h
    rw [List.foldl_cons]
    have hne : s.waiters.isEmpty = false := by
      cases hw : s.waiters with
      | nil => exact absurd hw h
      | cons w ws => rfl
    have hstep : coordRequest s c = { s with waiters := s.waiters ++ [c] } := by
      unfold coordRequest
      rw [hne]
      rfl
    rw [hstep]
    obtain ⟨hw, hf, hd⟩ := ih { s with waiters := s.waiters ++ [c] } (by simp)
    refine ⟨?_, hf, hd⟩
    rw [hw]
    simp

/-- C1: single-flight refresh — when a caller starts a refresh from an idle
coordinator and any number of further `requestRefresh()` calls arrive while
it is in flight, exactly one network fetch is issued, and on completion
every caller is delivered the same resulting State (or the same failure). -/
theorem single_flight_refresh (s : CoordState) (c0 : ℕ) (cs : List ℕ)
    (r : Except PyExc RemoteData) (hidle : s.waiters = []) :
    (cs.foldl coordRequest (coordRequest s c0)).fetches = s.fetches + 1 ∧
    (coordComplete (cs.foldl coordRequest (coordRequest s c0)) r).delivered =
      s.delivered ++ (c0 :: cs).map (fun c => (c, r)) ∧
    (∀ c, (c = c0 ∨ c ∈ cs) →
      (c, r) ∈ (coordComplete (cs.foldl coordRequest (coordRequest s c0)) r).delivered) := by
  have hstep : coordRequest s c0 = { s with waiters := [c0], fetches := s.fetches + 1 } := by
    unfold coordRequest
    rw [hidle]
    rfl
  have hproj1 : (coordRequest s c0).waiters = [c0] := by rw [hstep]
  have hproj2 : (coordRequest s c0).fetches = s.fetches + 1 := by rw [hstep]
  have hproj3 : (coordRequest s c0).delivered = s.delivered := by rw [hstep]
  obtain ⟨hw, hf, hd⟩ :=
    coordRequest_inflight_foldl cs (coordRequest s c0) (by rw [hproj1]; simp)
  rw [hproj1] at hw
  rw [hproj2] at hf
  rw [hproj3] at hd
  have hdel : (coordComplete (cs.foldl coordRequest (coordRequest s c0)) r).delivered =
      s.delivered ++ (c0 :: cs).map (fun c => (c, r)) := by
    unfold coordComplete
    dsimp only
    rw [hw, hd]
    simp
  refine ⟨hf, hdel, ?_⟩
  intro c hc
  rw [hdel]
  apply List.mem_append_right
  apply List.mem_map_of_mem
  rcases hc with rfl | hc
  · exact List.mem_cons_self c cs
  · exact List.mem_cons_of_mem c0 hc

/-- Witness for C1: caller 1 starts the refresh, caller 2 joins it; one
fetch is counted and both receive the same failure. -/
theorem single_flight_refresh_witness :
    (([2].foldl coordRequest
        (coordRequest ⟨none, [], 0, [], [], [], [], true⟩ 1)).fetches = 0 + 1) ∧
    ((1, Except.error PyExc.connectionError) ∈
      (coordComplete
        ([2].foldl coordRequest (coordRequest ⟨none, [], 0, [], [], [], [], true⟩ 1))
        (Except.error PyExc.connectionError)).delivered) ∧
    ((2, Except.error PyExc.connectionError) ∈
      (coordComplete
        ([2].foldl coordRequest (coordRequest ⟨none, [], 0, [], [], [], [], true⟩ 1))
        (Except.error PyExc.connectionError)).delivered) :=
  ⟨(single_flight_refresh ⟨none, [], 0, [], [], [], [], true⟩ 1 [2]
      (Except.error PyExc.connectionError) rfl).1,
   (single_flight_refresh ⟨none, [], 0, [], [], [], [], true⟩ 1 [2]
      (Except.error PyExc.connectionError) rfl).2.2 1 (Or.inl rfl),
   (single_flight_refresh ⟨none, [], 0, [], [], [], [], true⟩ 1 [2]
      (Except.error PyExc.connectionError) rfl).2.2 2
      (Or.inr (List.mem_cons_self 2 []))⟩

/-- C8: a failed scheduled refresh leaves the previously cached State
unchanged, notifies no subscriber and surfaces no error to the user
interface layer, and the scheduler stays active so the next tick retries
(one more fetch was spent on the failed attempt). -/
theorem scheduled_refresh_failure_keeps_cache (s : CoordState) (e : PyExc)
    (hact : s.schedulerActive = true) :
    (scheduledTick s (.error e)).cache = s.cache ∧
    (scheduledTick s (.error e)).notified = s.notified ∧
    (scheduledTick s (.error e)).uiErrors = s.uiErrors ∧
    (scheduledTick s (.error e)).schedulerActive = true ∧
    (scheduledTick s (.error e)).fetches = s.fetches + 1 :=
  ⟨rfl, rfl, rfl, hact, rfl⟩

/-- Witness for C8 at a concrete coordinator state holding a cached
snapshot and one subscriber. -/
theorem scheduled_refresh_failure_keeps_cache_witness :
    (scheduledTick ⟨some ⟨[], []⟩, [], 5, [], [0], [], [], true⟩
        (.error .timeoutError)).cache = some ⟨[], []⟩ ∧
    (scheduledTick ⟨some ⟨[], []⟩, [], 5, [], [0], [], [], true⟩
        (.error .timeoutError)).notified = [] ∧
    (scheduledTick ⟨some ⟨[], []⟩, [], 5, [], [0], [], [], true⟩
        (.error .timeoutError)).schedulerActive = true :=
  ⟨(scheduled_refresh_failure_keeps_cache
      ⟨some ⟨[], []⟩, [], 5, [], [0], [], [], true⟩ .timeoutError rfl).1,
   (scheduled_refresh_failure_keeps_cache
      ⟨some ⟨[], []⟩, [], 5, [], [0], [], [], true⟩ .timeoutError rfl).2.1,
   (scheduled_refresh_failure_keeps_cache
      ⟨some ⟨[], []⟩, [], 5, [], [0], [], [], true⟩ .timeoutError rfl).2.2.2.1⟩

end NatureRemo
